import Mathlib

/-!
Shallow embedding of the trafikvader daemon (hemtjanst/trafikvader).

The repository polls the Trafikinfo weather API and republishes air
temperature, relative humidity and precipitation readings over MQTT.
We embed the pure decision logic of the two versions of the program
found in the sources:

* the current `main.go` (XML weathermeasurepoint/v2 API): `retrieve`,
  `update`, the station registry built in `main`, and the poll loop;
* the earlier `main.go` kept in the sources (JSON API): `retrieveV1`
  with its per-status error policy;
* `hemtjanst.go`: the `topicName` transliteration.

Network and decoder side effects are factored out: the embedded
`retrieve` functions take the HTTP status code and the already-decoded
body as arguments, and a publish-failure oracle stands in for the MQTT
transport's `Update` errors.  Numeric sensor values are modelled as
rationals; `strconv.FormatFloat(x, 'f', 1, 32)` is modelled by `fmt1`,
decimal formatting with one fractional digit (rounding to nearest; the
binary float32 rounding step and the sign of negative zero are below
the granularity any claim observes).
-/

/-- One decoded measurepoint record of the weathermeasurepoint/v2 response
(`wr.Results[0].Data` elements in `main.go`).  `sample` is the observation
sample timestamp in seconds; optional fields mirror the `*float64`
accessors `Temperature().Value()`, `RelativeHumidity().Value()` and
`TotalWaterEquivalent().Value()`. -/
structure Measurepoint where
  id : String
  name : String
  sample : Int
  tempC : Option ℚ
  rhPct : Option ℚ
  precip : Option ℚ
  deriving DecidableEq, Repr

/-- The `sensor` record produced by `retrieve` in `main.go`. -/
structure Sensor where
  id : String
  name : String
  tempC : Option ℚ
  rhPct : Option ℚ
  precip : Option ℚ
  deriving DecidableEq, Repr

/-- The decoded `wmp.Response`: `hasErrors`/`errorMsg` mirror the library
methods `HasErrors()`/`ErrorMsg()`, and `results` holds the `Data` list of
each element of `wr.Results`. -/
structure WmpResponse where
  hasErrors : Bool
  errorMsg : String
  results : List (List Measurepoint)
  deriving DecidableEq, Repr

/-- The `sensor` struct literal built for one fresh measurepoint in the
collection loop of `retrieve` (`main.go`). -/
def sensorOf (mp : Measurepoint) : Sensor :=
  { id := mp.id, name := mp.name, tempC := mp.tempC, rhPct := mp.rhPct,
    precip := mp.precip }

/-- The collection loop of `retrieve` in `main.go`: records whose sample
time is strictly before `now - 1h` (3600 s) are skipped (`continue`), the
rest become `sensor` records in order. -/
def collectSensors (now : Int) : List Measurepoint → List Sensor
  | [] => []
  | mp :: rest =>
    if mp.sample < now - 3600 then collectSensors now rest
    else sensorOf mp :: collectSensors now rest

/-- The `retrieve` function of the current `main.go`, after the HTTP
request and XML decode: it receives the fetch time `now`, the HTTP status
code, and the decoded response.  A non-200 status or a response carrying
errors is a hard error; then the response must hold exactly one query
result; the single result's records are filtered for freshness. -/
def retrieve (now : Int) (statusCode : Nat) (wr : WmpResponse) :
    Except String (List Sensor) :=
  if statusCode ≠ 200 ∨ wr.hasErrors = true then
    Except.error ("http code: " ++ toString statusCode ++ ", error: " ++ wr.errorMsg)
  else if wr.results.length ≠ 1 then
    Except.error ("expected 1 query result, got " ++ toString wr.results.length)
  else
    Except.ok (collectSensors now wr.results.headI)

/-- Decimal formatting with one fractional digit, the embedding of
`strconv.FormatFloat(x, 'f', 1, 32)` on the rational value. -/
def fmt1 (q : ℚ) : String :=
  let n : Int := round (q * 10)
  (if n < 0 then "-" else "") ++ toString (n.natAbs / 10) ++ "." ++ toString (n.natAbs % 10)

/-- A single MQTT publish attempt (`station.Feature(f).Update(v)`). -/
structure PublishEvent where
  id : String
  feature : String
  value : String
  deriving DecidableEq, Repr

/-- The body of the `update` loop in `main.go` for one `sensor` record
whose station is registered: a publish attempt for temperature and
humidity when present, always one for precipitation (absent precipitation
defaults to 0, present precipitation is doubled).  `fails` is the oracle
for which `Update` calls return an error; each failing call produces the
corresponding log line.  Returns the publish attempts and the log lines,
in program order. -/
def updateItem (item : Sensor) (fails : String → String → Bool) :
    List PublishEvent × List String :=
  let tp := match item.tempC with
    | some t =>
      (([⟨item.id, "currentTemperature", fmt1 t⟩] : List PublishEvent),
       if fails item.id "currentTemperature" then
         ["MQTT: failed to publish temperature"] else [])
    | none => ([], [])
  let hp := match item.rhPct with
    | some h =>
      (([⟨item.id, "currentRelativeHumidity", fmt1 h⟩] : List PublishEvent),
       if fails item.id "currentRelativeHumidity" then
         ["MQTT: failed to publish relative humidity"] else [])
    | none => ([], [])
  let precip : ℚ := match item.precip with
    | some p => p * 2
    | none => 0
  let pp := (([⟨item.id, "precipitation", fmt1 precip⟩] : List PublishEvent),
    if fails item.id "precipitation" then
      ["MQTT: failed to publish precipitation"] else [])
  (tp.1 ++ hp.1 ++ pp.1, tp.2 ++ hp.2 ++ pp.2)

/-- The log line `update` emits when the publish of a given feature
fails. -/
def logMsgOf (feature : String) : String :=
  if feature = "currentTemperature" then "MQTT: failed to publish temperature"
  else if feature = "currentRelativeHumidity" then "MQTT: failed to publish relative humidity"
  else "MQTT: failed to publish precipitation"

/-- The `update` function of `main.go`: readings whose id has no entry in
the station registry are skipped (`continue`); the rest go through
`updateItem`.  The registry is modelled by its key set, a list of ids. -/
def update (sensors : List Sensor) (stations : List String)
    (fails : String → String → Bool) : List PublishEvent × List String :=
  match sensors with
  | [] => ([], [])
  | item :: rest =>
    let r := update rest stations fails
    if item.id ∈ stations then
      let u := updateItem item fails
      (u.1 ++ r.1, u.2 ++ r.2)
    else r

/-- The station-registry construction in `main`: one Go map entry per
reading, keyed by id (a duplicate id overwrites in place, so the key set
has one entry per distinct id, in first-appearance order). -/
def buildStations (data : List Sensor) : List String :=
  data.foldl (fun acc item => if item.id ∈ acc then acc else acc ++ [item.id]) []

/-- One iteration of the steady-state poll loop in `main`: a fetch error
is logged and the cycle ends (`continue`) with nothing published; a
successful fetch runs `update`.  The registry is returned unchanged in
both branches, as the loop body never writes to the `stations` map.
Returns (registry, publish attempts, log lines). -/
def pollCycle (stations : List String) (res : Except String (List Sensor))
    (fails : String → String → Bool) :
    List String × List PublishEvent × List String :=
  match res with
  | Except.error e => (stations, [], ["failed to fetch data from API: " ++ e])
  | Except.ok data =>
    let u := update data stations fails
    (stations, u.1, u.2)

/-- The steady-state poll loop: a sequence of timer firings, each with its
fetch outcome and publish-failure oracle, run from a registry state. -/
def runLoop (stations : List String) :
    List (Except String (List Sensor) × (String → String → Bool)) →
    List String × List PublishEvent × List String
  | [] => (stations, [], [])
  | (res, fails) :: rest =>
    let c := pollCycle stations res fails
    let r := runLoop c.1 rest
    (r.1, c.2.1 ++ r.2.1, c.2.2 ++ r.2.2)

/-- Unicode simple lowercasing as `strings.ToLower`, modelled on the
character ranges the program's station names draw from: ASCII letters and
the Swedish vowels handled by `topicName`. -/
def goToLower (c : Char) : Char :=
  if 'A' ≤ c ∧ c ≤ 'Z' then Char.ofNat (c.toNat + 32)
  else if c = 'Å' then 'å'
  else if c = 'Ä' then 'ä'
  else if c = 'Ö' then 'ö'
  else c

/-- Per-character expansion of the three `strings.ReplaceAll` calls of
`topicName`.  Each pattern is a single character and neither replacement
string contains any pattern character, so the chained whole-string
replacements act independently on each character occurrence. -/
def expand (c : Char) : List Char :=
  if c = 'å' then ['a', 'o']
  else if c = 'ä' then ['a', 'e']
  else if c = 'ö' then ['o', 'e']
  else [c]

/-- The `topicName` transliteration of `hemtjanst.go`: lowercase, then
replace every å with ao, ä with ae and ö with oe. -/
def topicName (s : String) : String :=
  String.mk ((s.data.map goToLower).flatMap expand)

/-- One decoded `WeatherMeasurepoint` record of the earlier JSON-API
version of the program (the older `main.go` kept in the sources).  That
version dereferences the temperature and humidity pointers
unconditionally, so they are plain values here. -/
structure MeasurepointV1 where
  id : String
  name : String
  sample : Int
  tempC : ℚ
  rhPct : ℚ
  precip : Option ℚ
  deriving DecidableEq, Repr

/-- The `data` record produced by the earlier version's `retrieve`. -/
structure DataV1 where
  id : String
  name : String
  tempC : ℚ
  rhPct : ℚ
  precip : ℚ
  deriving DecidableEq, Repr

/-- The text `http.StatusText` associates with a status code, modelled for
the codes exercised here (Go returns the empty string for unknown codes). -/
def statusText (code : Nat) : String :=
  if code = 403 then "Forbidden"
  else if code = 404 then "Not Found"
  else if code = 500 then "Internal Server Error"
  else if code = 502 then "Bad Gateway"
  else if code = 503 then "Service Unavailable"
  else ""

/-- The collection loop of the earlier version's `retrieve`: stale records
are skipped, absent precipitation defaults to 0, present precipitation is
doubled back to mm/h, and temperature/humidity are dereferenced. -/
def collectV1 (now : Int) : List MeasurepointV1 → List DataV1
  | [] => []
  | mp :: rest =>
    if mp.sample < now - 3600 then collectV1 now rest
    else
      { id := mp.id, name := mp.name, tempC := mp.tempC, rhPct := mp.rhPct,
        precip := match mp.precip with | some p => p * 2 | none => 0 } ::
        collectV1 now rest

/-- The `retrieve` function of the earlier JSON-API `main.go`, after the
HTTP request: `apiErr` is the decode of the body as `trafikinfo.APIError`
(its `Response.Result[0].Error.Message` field), available on a 400
response when that decode succeeds; `body` is the decode of the body as
the measurepoint response, `none` when that decode fails.  Status 401
maps to the credentials error, 400 surfaces the API error message, any
other non-200 status maps to a generic error carrying the code; then the
response must hold exactly one query result. -/
def retrieveV1 (now : Int) (statusCode : Nat) (apiErr : Option String)
    (body : Option (List (List MeasurepointV1))) : Except String (List DataV1) :=
  if statusCode = 401 then Except.error "invalid credentials"
  else if statusCode = 400 then
    match apiErr with
    | none => Except.error "failed to decode API error response"
    | some m => Except.error ("invalid request: " ++ m)
  else if statusCode ≠ 200 then
    Except.error ("got status code: " ++ toString statusCode ++ " " ++ statusText statusCode)
  else
    match body with
    | none => Except.error "failed to decode response"
    | some results =>
      if results.length ≠ 1 then
        Except.error ("expected 1 query result, got " ++ toString results.length)
      else
        Except.ok (collectV1 now results.headI)

example : topicName "Österlen" = "oesterlen" := by decide
example : retrieveV1 0 401 none none = Except.error "invalid credentials" := rfl
example : retrieveV1 0 400 (some "bad filter") none =
    Except.error "invalid request: bad filter" := rfl

/-! ## Shared lemmas -/

lemma collectSensors_eq (now : Int) (recs : List Measurepoint) :
    collectSensors now recs =
      (recs.filter fun mp => decide (now - 3600 ≤ mp.sample)).map sensorOf := by
  induction recs with
  | nil => rfl
  | cons mp rest ih =>
    by_cases h : mp.sample < now - 3600
    · have h2 : (fun mp : Measurepoint => decide (now - 3600 ≤ mp.sample)) mp = false :=
        decide_eq_false (not_le.mpr h)
      simp only [collectSensors, if_pos h, List.filter_cons, h2, Bool.false_eq_true,
        if_false, ih]
    · have h2 : (fun mp : Measurepoint => decide (now - 3600 ≤ mp.sample)) mp = true :=
        decide_eq_true (not_lt.mp h)
      simp only [collectSensors, if_neg h, List.filter_cons, h2, if_true, List.map_cons, ih]

lemma fmt1_zero : fmt1 0 = "0.0" := by
  have h : round ((0 : ℚ) * 10) = 0 := by norm_num
  simp only [fmt1, h]
  decide

lemma updateItem_events (item : Sensor) (fails : String → String → Bool) :
    (updateItem item fails).1 =
      (match item.tempC with
        | some t => [⟨item.id, "currentTemperature", fmt1 t⟩]
        | none => []) ++
      (match item.rhPct with
        | some h => [⟨item.id, "currentRelativeHumidity", fmt1 h⟩]
        | none => []) ++
      [⟨item.id, "precipitation",
        fmt1 (match item.precip with | some p => p * 2 | none => 0)⟩] := by
  obtain ⟨i, n, tc, rh, pr⟩ := item
  cases tc <;> cases rh <;> simp [updateItem]

lemma updateItem_logs (item : Sensor) (fails : String → String → Bool) :
    (updateItem item fails).2 =
      (updateItem item fails).1.filterMap
        (fun e => if fails e.id e.feature then some (logMsgOf e.feature) else none) := by
  obtain ⟨i, n, tc, rh, pr⟩ := item
  cases tc <;> cases rh <;>
    cases hf1 : fails i "currentTemperature" <;>
    cases hf2 : fails i "currentRelativeHumidity" <;>
    cases hf3 : fails i "precipitation" <;>
    simp [updateItem, logMsgOf, hf1, hf2, hf3]

lemma mem_update_events (sensors : List Sensor) (stations : List String)
    (fails : String → String → Bool) (e : PublishEvent)
    (he : e ∈ (update sensors stations fails).1) :
    ∃ item ∈ sensors, item.id ∈ stations ∧ e ∈ (updateItem item fails).1 := by
  induction sensors with
  | nil => simp [update] at he
  | cons item rest ih =>
    rw [update] at he
    by_cases hm : item.id ∈ stations
    · rw [if_pos hm] at he
      rcases List.mem_append.mp he with h1 | h2
      · exact ⟨item, List.mem_cons_self _ _, hm, h1⟩
      · obtain ⟨it, hit, hid, hev⟩ := ih h2
        exact ⟨it, List.mem_cons_of_mem _ hit, hid, hev⟩
    · rw [if_neg hm] at he
      obtain ⟨it, hit, hid, hev⟩ := ih he
      exact ⟨it, List.mem_cons_of_mem _ hit, hid, hev⟩

lemma updateItem_id_of_mem (item : Sensor) (fails : String → String → Bool)
    (e : PublishEvent) (he : e ∈ (updateItem item fails).1) : e.id = item.id := by
  rw [updateItem_events] at he
  rcases List.mem_append.mp he with h | h
  · rcases List.mem_append.mp h with h1 | h1
    · cases htc : item.tempC <;> rw [htc] at h1 <;> simp at h1
      rw [h1]
    · cases hrh : item.rhPct <;> rw [hrh] at h1 <;> simp at h1
      rw [h1]
  · simp at h
    rw [h]

lemma update_events_of_mem (sensors : List Sensor) (stations : List String)
    (fails : String → String → Bool) (item : Sensor) (e : PublishEvent)
    (hitem : item ∈ sensors) (hid : item.id ∈ stations)
    (he : e ∈ (updateItem item fails).1) :
    e ∈ (update sensors stations fails).1 := by
  induction sensors with
  | nil => cases hitem
  | cons a rest ih =>
    rw [update]
    rcases List.mem_cons.mp hitem with heq | hmem
    · subst heq
      rw [if_pos hid]
      exact List.mem_append_left _ he
    · by_cases hm : a.id ∈ stations
      · rw [if_pos hm]
        exact List.mem_append_right _ (ih hmem)
      · rw [if_neg hm]
        exact ih hmem

lemma updateItem_temp_filter (item : Sensor) (fails : String → String → Bool)
    (ht : item.tempC = none) :
    (updateItem item fails).1.filter (fun e => e.feature == "currentTemperature") = [] := by
  rw [updateItem_events, ht]
  cases h : item.rhPct <;> simp

lemma updateItem_rh_filter (item : Sensor) (fails : String → String → Bool)
    (hh : item.rhPct = none) :
    (updateItem item fails).1.filter (fun e => e.feature == "currentRelativeHumidity") = [] := by
  rw [updateItem_events, hh]
  cases h : item.tempC <;> simp

lemma update_temp_filter (sensors : List Sensor) (stations : List String)
    (fails : String → String → Bool) (h : ∀ s ∈ sensors, s.tempC = none) :
    (update sensors stations fails).1.filter (fun e => e.feature == "currentTemperature") = [] := by
  rw [List.filter_eq_nil_iff]
  intro e he
  obtain ⟨item, hitem, _, hev⟩ := mem_update_events _ _ _ _ he
  exact (List.filter_eq_nil_iff.mp (updateItem_temp_filter item fails (h item hitem))) e hev

lemma update_rh_filter (sensors : List Sensor) (stations : List String)
    (fails : String → String → Bool) (h : ∀ s ∈ sensors, s.rhPct = none) :
    (update sensors stations fails).1.filter (fun e => e.feature == "currentRelativeHumidity") = [] := by
  rw [List.filter_eq_nil_iff]
  intro e he
  obtain ⟨item, hitem, _, hev⟩ := mem_update_events _ _ _ _ he
  exact (List.filter_eq_nil_iff.mp (updateItem_rh_filter item fails (h item hitem))) e hev

lemma runLoop_filter_eq_nil (stations : List String)
    (inputs : List (Except String (List Sensor) × (String → String → Bool)))
    (p : PublishEvent → Bool)
    (h : ∀ q ∈ inputs, ∀ d, q.1 = Except.ok d →
      ∀ fails, (update d stations fails).1.filter p = []) :
    (runLoop stations inputs).2.1.filter p = [] := by
  induction inputs with
  | nil => rfl
  | cons q rest ih =>
    obtain ⟨res, fails⟩ := q
    cases res with
    | error err =>
      rw [runLoop]
      simp only [pollCycle]
      exact ih (fun q hq => h q (List.mem_cons_of_mem _ hq))
    | ok d =>
      rw [runLoop]
      simp only [pollCycle, List.filter_append]
      rw [h (Except.ok d, fails) (List.mem_cons_self _ _) d rfl fails,
        ih (fun q hq => h q (List.mem_cons_of_mem _ hq))]
      rfl

/-! ## Claims -/

/-- C1: when the fetch succeeds (status 200, no in-band errors, one
result set), every record whose observation sample timestamp is more than
one hour before the fetch time `now` contributes no reading to the output,
whatever its other fields hold; the result is still a success, built
exactly from the fresh records, so stale records are dropped silently
rather than reported as an error. -/
theorem stale_records_dropped (now : Int) (wr : WmpResponse)
    (recs : List Measurepoint) (he : wr.hasErrors = false)
    (hr : wr.results = [recs]) :
    retrieve now 200 wr =
      Except.ok ((recs.filter fun mp => decide (now - 3600 ≤ mp.sample)).map sensorOf) := by
  simp [retrieve, he, hr, collectSensors_eq]

/-- Witness for C1: at fetch time 10000 s, a record sampled at 1000 s
(more than an hour earlier) is dropped while a record sampled at 9000 s
survives, and the call still succeeds. -/
theorem stale_records_dropped_witness :
    retrieve 10000 200 ⟨false, "",
        [[⟨"old", "Old", 1000, some 5, some 50, some 1⟩,
          ⟨"new", "New", 9000, some 5, some 50, some 1⟩]]⟩ =
      Except.ok [⟨"new", "New", some 5, some 50, some 1⟩] := by
  have h := stale_records_dropped 10000
    ⟨false, "", [[⟨"old", "Old", 1000, some 5, some 50, some 1⟩,
      ⟨"new", "New", 9000, some 5, some 50, some 1⟩]]⟩
    [⟨"old", "Old", 1000, some 5, some 50, some 1⟩,
     ⟨"new", "New", 9000, some 5, some 50, some 1⟩] rfl rfl
  rw [h]
  rfl

/-- C5: whenever the decoded response does not hold exactly one logical
result set, `retrieve` returns an error and no reading list; when the
transport itself was clean (status 200, no in-band errors) the error is
the dedicated result-count message, so the condition is never silently
ignored. -/
theorem result_count_must_be_one (now : Int) (statusCode : Nat)
    (wr : WmpResponse) (h : wr.results.length ≠ 1) :
    (retrieve now statusCode wr).toOption = none ∧
    (statusCode = 200 → wr.hasErrors = false →
      retrieve now statusCode wr =
        Except.error ("expected 1 query result, got " ++ toString wr.results.length)) := by
  constructor
  · by_cases hs : statusCode ≠ 200 ∨ wr.hasErrors = true
    · simp only [retrieve, if_pos hs]
      rfl
    · rw [retrieve, if_neg hs, if_pos h]
      rfl
  · intro h200 herr
    simp [retrieve, h200, herr, h]

/-- Witness for C5: a clean response carrying zero result sets makes
`retrieve` fail with the result-count error. -/
theorem result_count_must_be_one_witness :
    (retrieve 0 200 ⟨false, "", []⟩).toOption = none ∧
    retrieve 0 200 ⟨false, "", []⟩ =
      Except.error "expected 1 query result, got 0" :=
  ⟨(result_count_must_be_one 0 200 ⟨false, "", []⟩ (by decide)).1,
   (result_count_must_be_one 0 200 ⟨false, "", []⟩ (by decide)).2 rfl rfl⟩
example : fmt1 0 = "0.0" := by
  have h : round ((0 : ℚ) * 10) = 0 := by norm_num
  simp only [fmt1, h]
  decide
example : retrieve 10000 200 ⟨false, "", [[⟨"a", "n", 1000, none, none, none⟩]]⟩ =
    Except.ok [] := rfl

/-- C2: a reading whose temperature (or relative humidity) is absent
yields no publish attempt for that feature in the update pass for that
reading, and across any sequence of poll cycles whose fetched readings
all lack the feature, no publish attempt for it is ever made — absence
propagates as no update, never as a zero value. -/
theorem absent_feature_never_published (item : Sensor)
    (fails : String → String → Bool) (stations : List String)
    (inputs : List (Except String (List Sensor) × (String → String → Bool))) :
    (item.tempC = none →
      (updateItem item fails).1.filter (fun e => e.feature == "currentTemperature") = []) ∧
    (item.rhPct = none →
      (updateItem item fails).1.filter (fun e => e.feature == "currentRelativeHumidity") = []) ∧
    ((∀ q ∈ inputs, ∀ d, q.1 = Except.ok d → ∀ s ∈ d, s.tempC = none) →
      (runLoop stations inputs).2.1.filter (fun e => e.feature == "currentTemperature") = []) ∧
    ((∀ q ∈ inputs, ∀ d, q.1 = Except.ok d → ∀ s ∈ d, s.rhPct = none) →
      (runLoop stations inputs).2.1.filter (fun e => e.feature == "currentRelativeHumidity") = []) := by
  refine ⟨updateItem_temp_filter item fails, updateItem_rh_filter item fails, ?_, ?_⟩
  · intro h
    exact runLoop_filter_eq_nil stations inputs _ fun q hq d hd f =>
      update_temp_filter d stations f (h q hq d hd)
  · intro h
    exact runLoop_filter_eq_nil stations inputs _ fun q hq d hd f =>
      update_rh_filter d stations f (h q hq d hd)

/-- Witness for C2: a reading with both gauges absent produces no
temperature or humidity publish, in one update pass and across a
three-cycle run (two successful fetches, one failed fetch). -/
theorem absent_feature_never_published_witness :
    (updateItem ⟨"a", "n", none, none, none⟩ (fun _ _ => false)).1.filter
        (fun e => e.feature == "currentTemperature") = [] ∧
    (updateItem ⟨"a", "n", none, none, none⟩ (fun _ _ => false)).1.filter
        (fun e => e.feature == "currentRelativeHumidity") = [] ∧
    (runLoop ["a"]
        [(Except.ok [⟨"a", "n", none, none, some 1⟩], fun _ _ => false),
         (Except.error "boom", fun _ _ => false),
         (Except.ok [⟨"a", "n", none, none, none⟩], fun _ _ => false)]).2.1.filter
        (fun e => e.feature == "currentTemperature") = [] ∧
    (runLoop ["a"]
        [(Except.ok [⟨"a", "n", none, none, some 1⟩], fun _ _ => false),
         (Except.error "boom", fun _ _ => false),
         (Except.ok [⟨"a", "n", none, none, none⟩], fun _ _ => false)]).2.1.filter
        (fun e => e.feature == "currentRelativeHumidity") = [] := by
  have h := absent_feature_never_published ⟨"a", "n", none, none, none⟩
    (fun _ _ => false) ["a"]
    [(Except.ok [⟨"a", "n", none, none, some 1⟩], fun _ _ => false),
     (Except.error "boom", fun _ _ => false),
     (Except.ok [⟨"a", "n", none, none, none⟩], fun _ _ => false)]
  exact ⟨h.1 rfl, h.2.1 rfl,
    h.2.2.1 (by
      intro q hq d hd s hs
      simp only [List.mem_cons, List.not_mem_nil, or_false] at hq
      rcases hq with rfl | rfl | rfl
      · obtain rfl := (Except.ok.inj hd).symm
        simp only [List.mem_singleton] at hs
        subst hs
        rfl
      · exact Except.noConfusion hd
      · obtain rfl := (Except.ok.inj hd).symm
        simp only [List.mem_singleton] at hs
        subst hs
        rfl),
    h.2.2.2 (by
      intro q hq d hd s hs
      simp only [List.mem_cons, List.not_mem_nil, or_false] at hq
      rcases hq with rfl | rfl | rfl
      · obtain rfl := (Except.ok.inj hd).symm
        simp only [List.mem_singleton] at hs
        subst hs
        rfl
      · exact Except.noConfusion hd
      · obtain rfl := (Except.ok.inj hd).symm
        simp only [List.mem_singleton] at hs
        subst hs
        rfl)⟩

lemma updateItem_precip_filter (item : Sensor) (fails : String → String → Bool) :
    (updateItem item fails).1.filter (fun e => e.feature == "precipitation") =
      [⟨item.id, "precipitation",
        fmt1 (match item.precip with | some p => p * 2 | none => 0)⟩] := by
  rw [updateItem_events]
  cases h1 : item.tempC <;> cases h2 : item.rhPct <;> simp

/-- C3: a registered reading with no upstream precipitation value still
gets a precipitation publish, and the published string is exactly `0.0`,
the defaulted value 0 formatted with one fractional digit. -/
theorem absent_precipitation_published_as_zero (item : Sensor)
    (sensors : List Sensor) (stations : List String)
    (fails : String → String → Bool) (hp : item.precip = none) :
    (updateItem item fails).1.filter (fun e => e.feature == "precipitation") =
      [⟨item.id, "precipitation", "0.0"⟩] ∧
    (item ∈ sensors → item.id ∈ stations →
      (⟨item.id, "precipitation", "0.0"⟩ : PublishEvent) ∈
        (update sensors stations fails).1) := by
  have h1 : (updateItem item fails).1.filter (fun e => e.feature == "precipitation") =
      [⟨item.id, "precipitation", "0.0"⟩] := by
    rw [updateItem_precip_filter, hp]
    simp [fmt1_zero]
  refine ⟨h1, fun hitem hid => ?_⟩
  have hev : (⟨item.id, "precipitation", "0.0"⟩ : PublishEvent) ∈
      (updateItem item fails).1 :=
    List.mem_of_mem_filter (p := fun e => e.feature == "precipitation")
      (by rw [h1]; exact List.mem_singleton_self _)
  exact update_events_of_mem sensors stations fails item _ hitem hid hev

/-- Witness for C3: a registered reading with precipitation absent gets a
precipitation publish whose payload is the string `0.0`. -/
theorem absent_precipitation_published_as_zero_witness :
    (updateItem ⟨"a", "n", some 1, some 2, none⟩ (fun _ _ => false)).1.filter
        (fun e => e.feature == "precipitation") = [⟨"a", "precipitation", "0.0"⟩] ∧
    (⟨"a", "precipitation", "0.0"⟩ : PublishEvent) ∈
      (update [⟨"a", "n", some 1, some 2, none⟩] ["a"] (fun _ _ => false)).1 := by
  have h := absent_precipitation_published_as_zero ⟨"a", "n", some 1, some 2, none⟩
    [⟨"a", "n", some 1, some 2, none⟩] ["a"] (fun _ _ => false) rfl
  exact ⟨h.1, h.2 (List.mem_singleton_self _) (by simp)⟩

/-- C4: a reading whose upstream precipitation value v is present is
published with the value 2·v — the 30-minute aggregate doubled to a
per-hour rate — formatted with one fractional digit, not v itself. -/
theorem present_precipitation_doubled (item : Sensor) (v : ℚ)
    (sensors : List Sensor) (stations : List String)
    (fails : String → String → Bool) (hp : item.precip = some v) :
    (updateItem item fails).1.filter (fun e => e.feature == "precipitation") =
      [⟨item.id, "precipitation", fmt1 (2 * v)⟩] ∧
    (item ∈ sensors → item.id ∈ stations →
      (⟨item.id, "precipitation", fmt1 (2 * v)⟩ : PublishEvent) ∈
        (update sensors stations fails).1) := by
  have h1 : (updateItem item fails).1.filter (fun e => e.feature == "precipitation") =
      [⟨item.id, "precipitation", fmt1 (2 * v)⟩] := by
    rw [updateItem_precip_filter, hp]
    simp [mul_comm]
  refine ⟨h1, fun hitem hid => ?_⟩
  have hev : (⟨item.id, "precipitation", fmt1 (2 * v)⟩ : PublishEvent) ∈
      (updateItem item fails).1 :=
    List.mem_of_mem_filter (p := fun e => e.feature == "precipitation")
      (by rw [h1]; exact List.mem_singleton_self _)
  exact update_events_of_mem sensors stations fails item _ hitem hid hev

/-- Witness for C4: a registered reading with upstream precipitation 3
gets its precipitation published as the value 2·3 formatted with one
fractional digit. -/
theorem present_precipitation_doubled_witness :
    (updateItem ⟨"b", "n", none, none, some 3⟩ (fun _ _ => false)).1.filter
        (fun e => e.feature == "precipitation") =
      [⟨"b", "precipitation", fmt1 (2 * 3)⟩] ∧
    (⟨"b", "precipitation", fmt1 (2 * 3)⟩ : PublishEvent) ∈
      (update [⟨"b", "n", none, none, some 3⟩] ["b"] (fun _ _ => false)).1 := by
  have h := present_precipitation_doubled ⟨"b", "n", none, none, some 3⟩ 3
    [⟨"b", "n", none, none, some 3⟩] ["b"] (fun _ _ => false) rfl
  exact ⟨h.1, h.2 (List.mem_singleton_self _) (by simp)⟩

/-- C8: a fetch error during a steady-state poll cycle is logged, runs no
update pass (nothing is published), leaves the station registry unchanged,
and the loop simply proceeds: the remaining cycles behave exactly as they
would have without the failed cycle, which only contributes its log line. -/
theorem fetch_error_cycle_isolated (stations : List String) (e : String)
    (fails : String → String → Bool)
    (rest : List (Except String (List Sensor) × (String → String → Bool))) :
    pollCycle stations (Except.error e) fails =
      (stations, [], ["failed to fetch data from API: " ++ e]) ∧
    runLoop stations ((Except.error e, fails) :: rest) =
      ((runLoop stations rest).1, (runLoop stations rest).2.1,
        ("failed to fetch data from API: " ++ e) :: (runLoop stations rest).2.2) :=
  ⟨rfl, rfl⟩

lemma buildStations_go_nodup (data : List Sensor) (acc : List String)
    (h : acc.Nodup) :
    (data.foldl (fun acc item => if item.id ∈ acc then acc else acc ++ [item.id]) acc).Nodup := by
  induction data generalizing acc with
  | nil => simpa using h
  | cons a rest ih =>
    rw [List.foldl_cons]
    by_cases hm : a.id ∈ acc
    · rw [if_pos hm]
      exact ih acc h
    · rw [if_neg hm]
      refine ih _ ?_
      rw [List.nodup_append]
      refine ⟨h, List.nodup_singleton _, ?_⟩
      intro x hx hx2
      simp only [List.mem_singleton] at hx2
      subst hx2
      exact hm hx

lemma buildStations_go_mem (data : List Sensor) (acc : List String) (x : String) :
    x ∈ data.foldl (fun acc item => if item.id ∈ acc then acc else acc ++ [item.id]) acc ↔
      x ∈ acc ∨ x ∈ data.map Sensor.id := by
  induction data generalizing acc with
  | nil => simp
  | cons a rest ih =>
    rw [List.foldl_cons]
    by_cases hm : a.id ∈ acc
    · rw [if_pos hm, ih]
      simp only [List.map_cons, List.mem_cons]
      constructor
      · tauto
      · rintro (h | h | h)
        · exact Or.inl h
        · exact Or.inl (by rw [h]; exact hm)
        · exact Or.inr h
    · rw [if_neg hm, ih]
      simp only [List.mem_append, List.mem_singleton, List.map_cons, List.mem_cons]
      tauto

lemma runLoop_fst (stations : List String)
    (inputs : List (Except String (List Sensor) × (String → String → Bool))) :
    (runLoop stations inputs).1 = stations := by
  induction inputs generalizing stations with
  | nil => rfl
  | cons q rest ih =>
    obtain ⟨res, fails⟩ := q
    cases res with
    | error e => exact ih stations
    | ok d => exact ih stations

lemma update_ids_registered (sensors : List Sensor) (stations : List String)
    (fails : String → String → Bool) :
    (update sensors stations fails).1.filter (fun e => !(decide (e.id ∈ stations))) = [] := by
  rw [List.filter_eq_nil_iff]
  intro e he
  obtain ⟨item, _, hid, hev⟩ := mem_update_events _ _ _ _ he
  have hi := updateItem_id_of_mem item fails e hev
  simp [hi, hid]

lemma update_all_unknown (sensors : List Sensor) (stations : List String)
    (fails : String → String → Bool) (h : ∀ s ∈ sensors, s.id ∉ stations) :
    update sensors stations fails = ([], []) := by
  induction sensors with
  | nil => rfl
  | cons a rest ih =>
    rw [update, if_neg (h a (List.mem_cons_self _ _))]
    exact ih fun s hs => h s (List.mem_cons_of_mem _ hs)

/-- C9: the station registry holds one entry per distinct station id of
the initial fetch, no poll cycle ever adds, removes or replaces an entry,
every publish attempt targets a registered id, and readings whose id has
no registry entry are skipped outright: if none of the readings are
registered, the update pass publishes and logs nothing. -/
theorem station_registry_invariant (data sensors : List Sensor)
    (stations : List String) (fails : String → String → Bool)
    (inputs : List (Except String (List Sensor) × (String → String → Bool))) :
    (buildStations data).Nodup ∧
    (∀ x, x ∈ buildStations data ↔ x ∈ data.map Sensor.id) ∧
    (runLoop stations inputs).1 = stations ∧
    (update sensors stations fails).1.filter (fun e => !(decide (e.id ∈ stations))) = [] ∧
    ((∀ s ∈ sensors, s.id ∉ stations) → update sensors stations fails = ([], [])) :=
  ⟨buildStations_go_nodup data [] List.nodup_nil,
   fun x => by simpa using buildStations_go_mem data [] x,
   runLoop_fst stations inputs,
   update_ids_registered sensors stations fails,
   update_all_unknown sensors stations fails⟩

/-- Witness for C9: with a registry holding only station `a`, a reading
for the unregistered station `b` is skipped: the update pass produces no
publish attempts and no log lines. -/
theorem station_registry_invariant_witness :
    (buildStations [⟨"a", "n", none, none, none⟩]).Nodup ∧
    (runLoop ["a"] []).1 = ["a"] ∧
    update [⟨"b", "n", none, none, none⟩] ["a"] (fun _ _ => false) = ([], []) := by
  have h := station_registry_invariant [⟨"a", "n", none, none, none⟩]
    [⟨"b", "n", none, none, none⟩] ["a"] (fun _ _ => false) []
  refine ⟨h.1, h.2.2.1, h.2.2.2.2 ?_⟩
  intro s hs
  simp only [List.mem_singleton] at hs
  subst hs
  simp

lemma updateItem_events_oracle (item : Sensor) (f g : String → String → Bool) :
    (updateItem item f).1 = (updateItem item g).1 := by
  rw [updateItem_events, updateItem_events]

lemma update_events_oracle (sensors : List Sensor) (stations : List String)
    (f g : String → String → Bool) :
    (update sensors stations f).1 = (update sensors stations g).1 := by
  induction sensors with
  | nil => rfl
  | cons a rest ih =>
    by_cases hm : a.id ∈ stations
    · simp only [update, if_pos hm]
      rw [updateItem_events_oracle a f g, ih]
    · simp only [update, if_neg hm]
      exact ih

lemma update_logs_spec (sensors : List Sensor) (stations : List String)
    (f : String → String → Bool) :
    (update sensors stations f).2 =
      (update sensors stations f).1.filterMap
        (fun e => if f e.id e.feature then some (logMsgOf e.feature) else none) := by
  induction sensors with
  | nil => rfl
  | cons a rest ih =>
    by_cases hm : a.id ∈ stations
    · simp only [update, if_pos hm]
      simp only [List.filterMap_append]
      rw [← updateItem_logs, ← ih]
    · simp only [update, if_neg hm]
      exact ih

/-- C10: within one update pass the publish attempts are completely
independent of which publish calls fail — a failing feature still leaves
the rest of its reading's features and all subsequent readings processed —
and the log output is exactly one line, with the feature's message, per
failing attempt. -/
theorem publish_failure_logged_and_ignored (sensors : List Sensor)
    (stations : List String) (f g : String → String → Bool) :
    (update sensors stations f).1 = (update sensors stations g).1 ∧
    (update sensors stations f).2 =
      (update sensors stations f).1.filterMap
        (fun e => if f e.id e.feature then some (logMsgOf e.feature) else none) :=
  ⟨update_events_oracle sensors stations f g,
   update_logs_spec sensors stations f⟩

/-- C6: in the JSON-API version's `retrieve`, a 401 response yields the
authentication error, a 400 response with a decodable API error payload
yields an error carrying exactly that payload's message, and any other
non-200 status yields the generic error carrying the numeric status
code. -/
theorem status_code_error_policy (now : Int) (statusCode : Nat)
    (apiErr : Option String) (body : Option (List (List MeasurepointV1)))
    (m : String) :
    retrieveV1 now 401 apiErr body = Except.error "invalid credentials" ∧
    retrieveV1 now 400 (some m) body = Except.error ("invalid request: " ++ m) ∧
    (statusCode ≠ 200 → statusCode ≠ 400 → statusCode ≠ 401 →
      retrieveV1 now statusCode apiErr body =
        Except.error ("got status code: " ++ toString statusCode ++ " " ++
          statusText statusCode)) := by
  refine ⟨rfl, rfl, fun h200 h400 h401 => ?_⟩
  simp only [retrieveV1, if_neg h401, if_neg h400, if_pos h200]

/-- Witness for C6: status 401 maps to the credentials error, a 400
carrying the payload message `bad filter` surfaces that message, and
status 503 maps to the generic error carrying the code. -/
theorem status_code_error_policy_witness :
    retrieveV1 0 401 none none = Except.error "invalid credentials" ∧
    retrieveV1 0 400 (some "bad filter") none =
      Except.error "invalid request: bad filter" ∧
    retrieveV1 0 503 none none =
      Except.error "got status code: 503 Service Unavailable" := by
  have h := status_code_error_policy 0 503 none none "bad filter"
  exact ⟨h.1, h.2.1, h.2.2 (by decide) (by decide) (by decide)⟩

lemma expand_no_swedish (a c : Char) (hc : c ∈ expand a) :
    ¬c = 'å' ∧ ¬c = 'ä' ∧ ¬c = 'ö' := by
  unfold expand at hc
  split_ifs at hc with h1 h2 h3
  · simp only [List.mem_cons, List.not_mem_nil, or_false] at hc
    rcases hc with rfl | rfl <;> decide
  · simp only [List.mem_cons, List.not_mem_nil, or_false] at hc
    rcases hc with rfl | rfl <;> decide
  · simp only [List.mem_cons, List.not_mem_nil, or_false] at hc
    rcases hc with rfl | rfl <;> decide
  · simp only [List.mem_singleton] at hc
    subst hc
    exact ⟨h1, h2, h3⟩

/-- C7: the topic-name transliteration is a pure function of its input:
it maps `Österlen` to `oesterlen`, replaces every å, ä, ö (upper or lower
case) with ao, ae, oe while lowercasing ASCII letters, leaves no å, ä or ö
in any output, and distributes over concatenation, acting on each
character occurrence independently. -/
theorem topic_name_transliteration (s t : String) :
    topicName "Österlen" = "oesterlen" ∧
    topicName "ÅÄÖ åäö" = "aoaeoe aoaeoe" ∧
    topicName "ABCXYZ" = "abcxyz" ∧
    ((topicName s).data.all fun c => !(c == 'å' || c == 'ä' || c == 'ö')) = true ∧
    topicName (s ++ t) = topicName s ++ topicName t := by
  refine ⟨by decide, by decide, by decide, ?_, ?_⟩
  · rw [List.all_eq_true]
    intro c hc
    simp only [topicName, String.mk, List.mem_flatMap] at hc
    obtain ⟨a, _, hca⟩ := hc
    obtain ⟨n1, n2, n3⟩ := expand_no_swedish a c hca
    simp [n1, n2, n3]
  · simp only [topicName, String.data_append, List.map_append, List.flatMap_append]
    rfl
